import Mathlib

/-!
Shallow embedding of `src/solucionador_captcha_openai.py` (class
`SolucionadorCaptchaOpenAI`).  The external world (filesystem, HTTP,
OpenAI inference endpoint) is modelled by an explicit environment `Env`;
every side effect the methods perform (stat, file read, HTTP GET,
inference call, console print) is recorded in an effect trace, so that
properties such as "no network call occurs" are statable.  Python
exceptions are modelled by `Option`-valued environment operations and
explicit control flow mirroring the `try/except` blocks of the source;
the embedded functions are total, so no fault can cross the `solve`
boundary by construction, and the theorems below characterise the
result/trace on each path.
-/

namespace Captcha

/-! ### Base64 (RFC 4648), modelling Python's `base64.b64encode`. -/

/-- The base64 alphabet: value `n < 64` to its character. -/
def b64Char (n : Nat) : Char :=
  if n < 26 then Char.ofNat (65 + n)
  else if n < 52 then Char.ofNat (97 + (n - 26))
  else if n < 62 then Char.ofNat (48 + (n - 52))
  else if n = 62 then '+'
  else '/'

/-- Inverse of the base64 alphabet. -/
def b64Val (c : Char) : Option Nat :=
  if 65 ≤ c.toNat ∧ c.toNat ≤ 90 then some (c.toNat - 65)
  else if 97 ≤ c.toNat ∧ c.toNat ≤ 122 then some (c.toNat - 97 + 26)
  else if 48 ≤ c.toNat ∧ c.toNat ≤ 57 then some (c.toNat - 48 + 52)
  else if c = '+' then some 62
  else if c = '/' then some 63
  else none

/-- Base64-encode a byte list (bytes as `Nat < 256`), three bytes at a time,
with `=` padding, as `base64.b64encode` does. -/
def b64encodeChunks : List Nat → List Char
  | [] => []
  | [b1] => [b64Char (b1 / 4), b64Char (b1 % 4 * 16), '=', '=']
  | [b1, b2] =>
      [b64Char (b1 / 4), b64Char (b1 % 4 * 16 + b2 / 16), b64Char (b2 % 16 * 4), '=']
  | b1 :: b2 :: b3 :: rest =>
      b64Char (b1 / 4) :: b64Char (b1 % 4 * 16 + b2 / 16) ::
      b64Char (b2 % 16 * 4 + b3 / 64) :: b64Char (b3 % 64) :: b64encodeChunks rest

/-- `base64.b64encode(bytes).decode('utf-8')` as a Lean string. -/
def b64encode (bs : List Nat) : String := String.mk (b64encodeChunks bs)

/-- Standard base64 decoder (four characters at a time, `=` padding only at
the very end), used to state the round-trip property of the payload. -/
def b64decodeChunks : List Char → Option (List Nat)
  | [] => some []
  | c1 :: c2 :: c3 :: c4 :: rest =>
      match b64Val c1, b64Val c2 with
      | some v1, some v2 =>
        if c3 = '=' then
          if c4 = '=' ∧ rest = [] then some [v1 * 4 + v2 / 16] else none
        else
          match b64Val c3 with
          | some v3 =>
            if c4 = '=' then
              if rest = [] then some [v1 * 4 + v2 / 16, v2 % 16 * 16 + v3 / 4] else none
            else
              match b64Val c4 with
              | some v4 =>
                  (b64decodeChunks rest).map
                    (fun tl => (v1 * 4 + v2 / 16) :: (v2 % 16 * 16 + v3 / 4) ::
                      (v3 % 4 * 64 + v4) :: tl)
              | none => none
          | none => none
      | _, _ => none
  | _ => none

/-- Decode a base64 string back to bytes. -/
def b64decode (s : String) : Option (List Nat) := b64decodeChunks s.data

/-! ### The modelled external world and effect traces. -/

/-- One observable request to the OpenAI chat-completions endpoint, as built
by `resolver_captcha` (model name, the text part, the `image_url` part with
its detail hint, and the fixed generation parameters). -/
structure InferenceRequest where
  model : String
  promptText : String
  imageUrl : String
  detail : String
  maxTokens : Nat
  temperature : ℚ
  deriving DecidableEq, Repr

/-- A choice of a chat-completions response; `content` is `none` when the
API returns a null message content (attribute access then raises, which the
source catches). -/
structure Choice where
  content : Option String
  deriving DecidableEq, Repr

/-- A chat-completions response: its list of choices. -/
structure ChatResponse where
  choices : List Choice
  deriving DecidableEq, Repr

/-- An HTTP response as seen by `requests.get`. -/
structure HttpResponse where
  status : Nat
  contentType : Option String
  content : List Nat
  deriving DecidableEq, Repr

/-- The external world: filesystem stat and read, MIME guessing, HTTP GET
and the inference endpoint.  `none` results model a raised exception
(read error, timeout/connection error, API error). -/
structure Env where
  pathExists : String → Bool
  guessType : String → Option String
  readFile : String → Option (List Nat)
  httpGet : String → Option HttpResponse
  inference : InferenceRequest → Option ChatResponse

/-- Observable side effects of a call, in order. -/
inductive Effect where
  | fsExists (path : String)
  | fsRead (path : String)
  | netGet (url : String)
  | netInference (req : InferenceRequest)
  | printed (msg : String)
  deriving DecidableEq, Repr

/-- Python's `str(x)` on an `Optional[str]` (an absent value prints `None`),
as an f-string renders it. -/
def pyStr : Option String → String
  | some s => s
  | none => "None"

/-- The whitespace characters `str.strip()` removes (the ASCII ones). -/
def pyWhitespace (c : Char) : Bool :=
  c == ' ' || c == '\t' || c == '\n' || c == '\r' || c == '\x0b' || c == '\x0c'

/-- Python's `str.strip()`: drop leading and trailing whitespace. -/
def pyStrip (s : String) : String :=
  String.mk (((s.data.dropWhile pyWhitespace).reverse.dropWhile pyWhitespace).reverse)

/-- Python's `str.startswith(p)`: character-list prefix test. -/
def pyStartsWith (s p : String) : Bool :=
  p.data.isPrefixOf s.data

/-- Python truthiness of an `Optional[str]`: `None` and `''` are falsy. -/
def pyTruthy : Option String → Bool
  | some s => !(s == "")
  | none => false

/-- Python's `a or b` for `a : Optional[str]`, `b : str`. -/
def pyOr (a : Option String) (b : String) : String :=
  match a with
  | some s => if s == "" then b else s
  | none => b

/-! ### The embedded source functions. -/

/-- `tipos_suportados` from `_validar_arquivo_imagem`. -/
def tipos_suportados : List String :=
  ["image/jpeg", "image/jpg", "image/png", "image/gif", "image/webp"]

/-- `tipo_mime not in tipos_suportados` (negated): membership of the guessed
type in the supported list; a `None` guess is never a member. -/
def mimeSupported : Option String → Bool
  | some t => tipos_suportados.contains t
  | none => false

/-- `SolucionadorCaptchaOpenAI._validar_arquivo_imagem`: existence check,
then MIME check, printing a diagnostic on failure. -/
def validar_arquivo_imagem (env : Env) (caminho_imagem : String) :
    Bool × List Effect :=
  if !env.pathExists caminho_imagem then
    (false, [Effect.fsExists caminho_imagem,
             Effect.printed ("❌ Arquivo não encontrado: " ++ caminho_imagem)])
  else if !mimeSupported (env.guessType caminho_imagem) then
    (false, [Effect.fsExists caminho_imagem,
             Effect.printed ("❌ Formato não suportado: " ++
               pyStr (env.guessType caminho_imagem))])
  else
    (true, [Effect.fsExists caminho_imagem])

/-- `SolucionadorCaptchaOpenAI.converter_url_base64`: print, blocking GET
(timeout 10), `raise_for_status`, base64-encode the body, take the MIME type
from the `content-type` header defaulting to `image/png`, and build the data
URI; every raised exception is caught, printed, and turned into `None`. -/
def converter_url_base64 (env : Env) (url_imagem : String) :
    Option String × List Effect :=
  let ef0 : List Effect :=
    [Effect.printed ("📥 Baixando imagem de: " ++ url_imagem), Effect.netGet url_imagem]
  match env.httpGet url_imagem with
  | none =>
      (none, ef0 ++ [Effect.printed "❌ Erro ao baixar e converter URL para base64: "])
  | some resposta =>
      if 400 ≤ resposta.status then
        (none, ef0 ++ [Effect.printed "❌ Erro ao baixar e converter URL para base64: "])
      else
        (some ("data:" ++ (resposta.contentType.getD "image/png") ++ ";base64," ++
            b64encode resposta.content),
         ef0)

/-- `SolucionadorCaptchaOpenAI.converter_imagem_base64`: validate, read the
file bytes, base64-encode, re-guess the MIME type and build the data URI;
exceptions are caught, a (literal, not interpolated) diagnostic is printed
and `None` is returned. -/
def converter_imagem_base64 (env : Env) (caminho_imagem : String) :
    Option String × List Effect :=
  let v := validar_arquivo_imagem env caminho_imagem
  if !v.1 then
    (none, v.2)
  else
    match env.readFile caminho_imagem with
    | none =>
        (none, v.2 ++ [Effect.fsRead caminho_imagem,
          Effect.printed "❌ Erro ao converter imagem para base64: \x7berro\x7d"])
    | some conteudo_imagem =>
        (some ("data:" ++ pyStr (env.guessType caminho_imagem) ++ ";base64," ++
            b64encode conteudo_imagem),
         v.2 ++ [Effect.fsRead caminho_imagem])

/-- The `"texto"` prompt template of `_criar_prompt_captcha`. -/
def prompt_texto : String :=
  "\n                Analise esta imagem de CAPTCHA e extraia APENAS o texto/código que está visível.\n\n                Instruções:\n                - Retorne APENAS os caracteres alfanuméricos visíveis\n                - Ignore qualquer ruído, distorção ou elementos de fundo\n                - NÃO inclua explicações, pontuação ou texto adicional\n                - Se houver letras maiúsculas e minúsculas, mantenha o formato original\n                - Se não conseguir ler claramente, faça sua melhor estimativa\n\n                Resposta esperada: apenas o código/texto\n            "

/-- The `"matematica"` prompt template of `_criar_prompt_captcha`. -/
def prompt_matematica : String :=
  "\n                Esta imagem contém uma operação matemática simples (CAPTCHA).\n\n                Instruções:\n                - Resolva a operação matemática mostrada\n                - Retorne APENAS o resultado numérico\n                - Operações típicas: soma (+), subtração (-), multiplicação (×, *)\n\n                Resposta esperada: apenas o número resultado\n            "

/-- The `"objeto"` prompt template of `_criar_prompt_captcha`. -/
def prompt_objeto : String :=
  "\n                Esta imagem é um CAPTCHA que pede para identificar objetos específicos.\n\n                Instruções:\n                - Identifique os objetos solicitados na imagem\n                - Retorne apenas a resposta ao que está sendo perguntado\n                - Seja específico e conciso\n\n                Resposta esperada: apenas a resposta direta\n            "

/-- `SolucionadorCaptchaOpenAI._criar_prompt_captcha`:
`prompts.get(tipo_captcha, prompts['texto'])`. -/
def criar_prompt_captcha (tipo_captcha : String) : String :=
  if tipo_captcha == "texto" then prompt_texto
  else if tipo_captcha == "matematica" then prompt_matematica
  else if tipo_captcha == "objeto" then prompt_objeto
  else prompt_texto

/-- The fixed sampling temperature `0.1` of the chat-completions call, as
the rational 1/10 (given in lowest terms so that it is kernel-computable). -/
def temperatura : ℚ := ⟨1, 10, by decide, by decide⟩

/-- The diagnostic printed when `base64_imagem` is falsy. -/
def msgNaoProcessar : String := "❌ Não foi possível processar a imagem"

/-- The diagnostic of `resolver_captcha`'s `except` block (the `{erro}`
remainder depends on the raised exception and is elided). -/
def msgErroResolver : String := "❌ Erro ao resolver CAPTCHA: "

/-- `SolucionadorCaptchaOpenAI.resolver_captcha`: dispatch on an HTTP(S)
prefix (the URL arm sets `base64_imagem = ''`), falsiness check, prompt
selection with the `or` idiom, one chat-completions call with `detail
'high'`, `max_tokens=50`, `temperature=0.1`, and the trimmed first choice;
every exception inside the `try` is caught, printed, and becomes `None`. -/
def resolver_captcha (env : Env) (modelo entrada tipo_captcha : String)
    (prompt_personalizado : Option String) : Option String × List Effect :=
  let prep : Option String × List Effect :=
    if pyStartsWith entrada "http://" || pyStartsWith entrada "https://" then
      (some "", [])
    else
      converter_imagem_base64 env entrada
  if !pyTruthy prep.1 then
    (none, prep.2 ++ [Effect.printed msgNaoProcessar])
  else
    let prompt := pyOr prompt_personalizado (criar_prompt_captcha tipo_captcha)
    let req : InferenceRequest :=
      { model := modelo, promptText := prompt, imageUrl := prep.1.getD "",
        detail := "high", maxTokens := 50, temperature := temperatura }
    let ef2 := prep.2 ++
      [Effect.printed "📤 Enviando para GPT-4 Vision...", Effect.netInference req]
    match env.inference req with
    | none => (none, ef2 ++ [Effect.printed msgErroResolver])
    | some resposta =>
        match resposta.choices with
        | [] => (none, ef2 ++ [Effect.printed msgErroResolver])
        | escolha :: _ =>
            match escolha.content with
            | none => (none, ef2 ++ [Effect.printed msgErroResolver])
            | some conteudo =>
                (some (pyStrip conteudo),
                 ef2 ++ [Effect.printed ("✅ CAPTCHA resolvido: " ++ pyStrip conteudo)])

/-! ### Trace observations. -/

/-- Network effects: an HTTP GET or an inference call. -/
def isNetEffect : Effect → Bool
  | .netGet _ => true
  | .netInference _ => true
  | _ => false

/-- Does a trace perform any network call? -/
def hasNet (l : List Effect) : Bool := l.any isNetEffect

/-- Does a trace read any file's contents? -/
def hasRead (l : List Effect) : Bool :=
  l.any fun e =>
    match e with
    | .fsRead _ => true
    | _ => false

/-- Does a trace print a `❌` failure diagnostic? -/
def hasErrPrint (l : List Effect) : Bool :=
  l.any fun e =>
    match e with
    | .printed s => pyStartsWith s "❌"
    | _ => false

/-- The instruction texts of all inference calls of a trace, in order. -/
def sentPrompts (l : List Effect) : List String :=
  l.filterMap fun e =>
    match e with
    | .netInference r => some r.promptText
    | _ => none

/-- A data URI whose declared MIME type is in the supported set and whose
payload is the base64 encoding of some byte list. -/
def approvedDataUri (s : String) : Prop :=
  ∃ t bs, t ∈ tipos_suportados ∧
    s = "data:" ++ t ++ ";base64," ++ b64encode bs

/-! ### Concrete worlds used in witnesses and counterexamples. -/

/-- A healthy world: `captcha.png` exists, guesses as PNG, reads as the four
PNG magic bytes, and the endpoint answers `"  AB12 \n"`. -/
def envOk : Env :=
  { pathExists := fun _ => true, guessType := fun _ => some "image/png",
    readFile := fun _ => some [137, 80, 78, 71], httpGet := fun _ => none,
    inference := fun _ => some { choices := [{ content := some "  AB12 \n" }] } }

/-- As `envOk`, but every inference call raises (an authentication error). -/
def envAuthFail : Env := { envOk with inference := fun _ => none }

/-- As `envOk`, but no path exists. -/
def envMissing : Env := { envOk with pathExists := fun _ => false }

/-- As `envOk`, but every file guesses as a PDF. -/
def envBadType : Env := { envOk with guessType := fun _ => some "application/pdf" }

/-- As `envOk`, but HTTP GET succeeds with a `text/html` body `"hi"`. -/
def envHtml : Env :=
  { envOk with
    httpGet := fun _ => some ({ status := 200, contentType := some "text/html", content := [104, 105] } : HttpResponse) }

/-! ### Helper lemmas. -/

theorem b64Val_b64Char : ∀ n, n < 64 → b64Val (b64Char n) = some n ∧ b64Char n ≠ '=' := by
  decide

/-- Decoding is left inverse to encoding on genuine byte lists. -/
theorem b64decode_b64encode (bs : List Nat) (h : ∀ b ∈ bs, b < 256) :
    b64decode (b64encode bs) = some bs := by
  show b64decodeChunks (b64encodeChunks bs) = some bs
  induction bs using b64encodeChunks.induct with
  | case1 => simp [b64encodeChunks, b64decodeChunks]
  | case2 b1 =>
      have hb1 : b1 < 256 := h b1 (by simp)
      have h1 := b64Val_b64Char (b1 / 4) (by omega)
      have h2 := b64Val_b64Char (b1 % 4 * 16) (by omega)
      simp [b64encodeChunks, b64decodeChunks, h1.1, h2.1]
      omega
  | case3 b1 b2 =>
      have hb1 : b1 < 256 := h b1 (by simp)
      have hb2 : b2 < 256 := h b2 (by simp)
      have h1 := b64Val_b64Char (b1 / 4) (by omega)
      have h2 := b64Val_b64Char (b1 % 4 * 16 + b2 / 16) (by omega)
      have h3 := b64Val_b64Char (b2 % 16 * 4) (by omega)
      simp [b64encodeChunks, b64decodeChunks, h1.1, h2.1, h3.1, h3.2]
      omega
  | case4 b1 b2 b3 rest ih =>
      have hb1 : b1 < 256 := h b1 (by simp)
      have hb2 : b2 < 256 := h b2 (by simp)
      have hb3 : b3 < 256 := h b3 (by simp)
      have h1 := b64Val_b64Char (b1 / 4) (by omega)
      have h2 := b64Val_b64Char (b1 % 4 * 16 + b2 / 16) (by omega)
      have h3 := b64Val_b64Char (b2 % 16 * 4 + b3 / 64) (by omega)
      have h4 := b64Val_b64Char (b3 % 64) (by omega)
      have ih' := ih (fun b hb => h b (by simp [hb]))
      simp [b64encodeChunks, b64decodeChunks, h1.1, h2.1, h3.1, h4.1, h3.2, h4.2, ih']
      refine ⟨by omega, by omega, by omega⟩

/-- Inversion: a successful local conversion comes from an existing file
with a supported guessed MIME type and readable contents, and has the data
URI shape. -/
theorem converter_some_form (env : Env) (c s : String)
    (hs : (converter_imagem_base64 env c).1 = some s) :
    ∃ t bs, env.guessType c = some t ∧ t ∈ tipos_suportados ∧
      env.readFile c = some bs ∧ s = "data:" ++ t ++ ";base64," ++ b64encode bs := by
  unfold converter_imagem_base64 validar_arquivo_imagem at hs
  cases hpe : env.pathExists c with
  | false => simp [hpe] at hs
  | true =>
    cases hg : env.guessType c with
    | none => simp [hpe, hg, mimeSupported] at hs
    | some t =>
      by_cases ht : t ∈ tipos_suportados
      · cases hr : env.readFile c with
        | none => simp [hpe, hg, ht, hr, mimeSupported] at hs
        | some bs =>
          refine ⟨t, bs, rfl, ht, rfl, ?_⟩
          simp [hpe, hg, ht, hr, mimeSupported, pyStr] at hs
          exact hs.symm
      · simp [hpe, hg, ht, mimeSupported] at hs

/-- The local conversion routine performs no network call. -/
theorem converter_hasNet (env : Env) (c : String) :
    hasNet (converter_imagem_base64 env c).2 = false := by
  unfold converter_imagem_base64 validar_arquivo_imagem
  cases hpe : env.pathExists c with
  | false => simp [hpe, hasNet, isNetEffect]
  | true =>
    cases hsup : mimeSupported (env.guessType c) with
    | false => simp [hpe, hsup, hasNet, isNetEffect]
    | true =>
      cases hr : env.readFile c with
      | none => simp [hpe, hsup, hr, hasNet, isNetEffect]
      | some bs => simp [hpe, hsup, hr, hasNet, isNetEffect]

/-- A network-free trace followed by one failure print contains no
inference effect. -/
theorem netInference_not_mem_fail (l : List Effect) (hnet : hasNet l = false)
    (req : InferenceRequest) (m : String) :
    Effect.netInference req ∉ l ++ [Effect.printed m] := by
  intro hm
  rcases List.mem_append.mp hm with hm | hm
  · have := (List.any_eq_false.mp hnet) _ hm
    simp [isNetEffect] at this
  · simp at hm

/-- In a trace of the shape prefix-print-call-print with a network-free
prefix, the only inference effect is the recorded call. -/
theorem netInference_mem_shape (l : List Effect) (hnet : hasNet l = false)
    (req req' : InferenceRequest) (m1 m2 : String)
    (hm : Effect.netInference req ∈
      l ++ [Effect.printed m1, Effect.netInference req'] ++ [Effect.printed m2]) :
    req = req' := by
  rcases List.mem_append.mp hm with hm' | hm'
  · rcases List.mem_append.mp hm' with hm2 | hm2
    · have := (List.any_eq_false.mp hnet) _ hm2
      simp [isNetEffect] at this
    · simpa using hm2
  · simp at hm'

/-- Inversion for the one inference call of `resolver_captcha`: it happens
only on the local-file path with a successful (hence truthy) conversion,
and its request is exactly the one the source builds. -/
theorem resolver_inference_inv (env : Env) (modelo entrada tipo_captcha : String)
    (pp : Option String) (req : InferenceRequest)
    (hm : Effect.netInference req ∈ (resolver_captcha env modelo entrada tipo_captcha pp).2) :
    (pyStartsWith entrada "http://" || pyStartsWith entrada "https://") = false ∧
    ∃ img, (converter_imagem_base64 env entrada).1 = some img ∧ img ≠ "" ∧
      req = { model := modelo, promptText := pyOr pp (criar_prompt_captcha tipo_captcha),
              imageUrl := img, detail := "high", maxTokens := 50,
              temperature := temperatura } := by
  have hnet := converter_hasNet env entrada
  unfold resolver_captcha at hm
  cases hurl : (pyStartsWith entrada "http://" || pyStartsWith entrada "https://") with
  | true => simp [hurl, pyTruthy] at hm
  | false =>
    refine ⟨rfl, ?_⟩
    rw [hurl] at hm
    simp only [Bool.false_eq_true, if_false] at hm
    cases hcv : (converter_imagem_base64 env entrada).1 with
    | none =>
        rw [hcv] at hm
        exact absurd hm (netInference_not_mem_fail _ hnet _ _)
    | some img =>
        rw [hcv] at hm
        by_cases himg : img = ""
        · subst himg
          exact absurd hm (netInference_not_mem_fail _ hnet _ _)
        · refine ⟨img, rfl, himg, ?_⟩
          have htr : pyTruthy (some img) = true := by
            simp [pyTruthy, himg]
          rw [htr] at hm
          simp only [Bool.not_true, Bool.false_eq_true, if_false, Option.getD_some] at hm
          cases hinf : env.inference ({ model := modelo, promptText := pyOr pp (criar_prompt_captcha tipo_captcha), imageUrl := img, detail := "high", maxTokens := 50, temperature := temperatura }) with
          | none =>
              rw [hinf] at hm
              exact netInference_mem_shape _ hnet _ _ _ _ hm
          | some resposta =>
              rw [hinf] at hm
              obtain ⟨chs⟩ := resposta
              cases chs with
              | nil => exact netInference_mem_shape _ hnet _ _ _ _ hm
              | cons escolha rest =>
                  obtain ⟨co⟩ := escolha
                  cases co with
                  | none => exact netInference_mem_shape _ hnet _ _ _ _ hm
                  | some conteudo => exact netInference_mem_shape _ hnet _ _ _ _ hm

/-- Appending a `❌` print makes `hasErrPrint` true. -/
theorem hasErrPrint_append_err (l : List Effect) (m : String)
    (hm : pyStartsWith m "❌" = true) :
    hasErrPrint (l ++ [Effect.printed m]) = true := by
  simp [hasErrPrint, List.any_append, hm]

/-- A data URI is never the empty string. -/
theorem dataUri_ne_empty (t r : String) : ("data:" ++ t ++ ";base64," ++ r) ≠ "" := by
  intro h
  have hl := congrArg String.length h
  rw [String.length_append, String.length_append, String.length_append] at hl
  have h5 : ("data:").length = 5 := rfl
  have h8 : (";base64,").length = 8 := rfl
  have h0 : ("" : String).length = 0 := rfl
  omega

/-! ### The claims. -/

/-- Claim C1: for every input reference beginning with `http://` or
`https://`, `resolver_captcha` returns `None` and its entire trace is the
single failure print — in particular no network call occurs, so
`converter_url_base64` is never invoked and URL-based resolution always
fails without any fetch. -/
theorem c1_url_no_fetch (env : Env) (modelo entrada tipo_captcha : String)
    (pp : Option String)
    (h : (pyStartsWith entrada "http://" || pyStartsWith entrada "https://") = true) :
    resolver_captcha env modelo entrada tipo_captcha pp =
      (none, [Effect.printed msgNaoProcessar]) ∧
    hasNet (resolver_captcha env modelo entrada tipo_captcha pp).2 = false := by
  have h1 : resolver_captcha env modelo entrada tipo_captcha pp =
      (none, [Effect.printed msgNaoProcessar]) := by
    simp [resolver_captcha, h, pyTruthy]
  exact ⟨h1, by rw [h1]; decide⟩

/-- Claim C1, witness at a concrete HTTPS reference. -/
theorem c1_witness :
    resolver_captcha envOk "gpt-4o" "https://exemplo.com/captcha.jpg" "texto" none =
      (none, [Effect.printed msgNaoProcessar]) ∧
    hasNet (resolver_captcha envOk "gpt-4o" "https://exemplo.com/captcha.jpg" "texto" none).2 = false :=
  c1_url_no_fetch envOk "gpt-4o" "https://exemplo.com/captcha.jpg" "texto" none (by decide)

/-- Claim C2: the embedded `resolver_captcha` is a total function (no
exception crosses the `solve` boundary, by construction of the model), a
`None` result is always accompanied by a printed `❌` diagnostic, and any
world whose inference endpoint always raises (e.g. an authentication
error) yields the failure result `None`. -/
theorem c2_errors_contained (env : Env) (modelo entrada tipo_captcha : String)
    (pp : Option String) :
    ((resolver_captcha env modelo entrada tipo_captcha pp).1 = none →
      hasErrPrint (resolver_captcha env modelo entrada tipo_captcha pp).2 = true) ∧
    ((∀ r, env.inference r = none) →
      (resolver_captcha env modelo entrada tipo_captcha pp).1 = none) := by
  constructor
  · intro hn
    unfold resolver_captcha at hn ⊢
    cases hurl : (pyStartsWith entrada "http://" || pyStartsWith entrada "https://") with
    | true =>
        exact hasErrPrint_append_err [] msgNaoProcessar (by decide)
    | false =>
        rw [hurl] at hn
        simp only [Bool.false_eq_true, if_false] at hn ⊢
        cases hcv : (converter_imagem_base64 env entrada).1 with
        | none =>
            exact hasErrPrint_append_err _ msgNaoProcessar (by decide)
        | some img =>
            rw [hcv] at hn
            by_cases himg : img = ""
            · subst himg
              exact hasErrPrint_append_err _ msgNaoProcessar (by decide)
            · have htr : pyTruthy (some img) = true := by simp [pyTruthy, himg]
              rw [htr] at hn ⊢
              simp only [Bool.not_true, Bool.false_eq_true, if_false, Option.getD_some] at hn ⊢
              cases hinf : env.inference ({ model := modelo, promptText := pyOr pp (criar_prompt_captcha tipo_captcha), imageUrl := img, detail := "high", maxTokens := 50, temperature := temperatura }) with
              | none =>
                  exact hasErrPrint_append_err _ msgErroResolver (by decide)
              | some resposta =>
                  rw [hinf] at hn
                  obtain ⟨chs⟩ := resposta
                  cases chs with
                  | nil => exact hasErrPrint_append_err _ msgErroResolver (by decide)
                  | cons escolha rest =>
                      obtain ⟨co⟩ := escolha
                      cases co with
                      | none => exact hasErrPrint_append_err _ msgErroResolver (by decide)
                      | some conteudo => exact Option.noConfusion hn
  · intro hfail
    unfold resolver_captcha
    cases hurl : (pyStartsWith entrada "http://" || pyStartsWith entrada "https://") with
    | true => simp [pyTruthy]
    | false =>
        simp only [Bool.false_eq_true, if_false]
        cases hcv : (converter_imagem_base64 env entrada).1 with
        | none => simp [pyTruthy]
        | some img =>
            by_cases himg : img = ""
            · subst himg
              simp [pyTruthy]
            · have htr : pyTruthy (some img) = true := by simp [pyTruthy, himg]
              rw [htr]
              simp only [Bool.not_true, Bool.false_eq_true, if_false, Option.getD_some]
              rw [hfail]

/-- Claim C2, witness: a stubbed endpoint that always raises an
authentication error yields a printed diagnostic and the `None` result. -/
theorem c2_witness :
    hasErrPrint (resolver_captcha envAuthFail "gpt-4o" "captcha.png" "texto" none).2 = true ∧
    (resolver_captcha envAuthFail "gpt-4o" "captcha.png" "texto" none).1 = none :=
  ⟨(c2_errors_contained envAuthFail "gpt-4o" "captcha.png" "texto" none).1 (by decide),
   (c2_errors_contained envAuthFail "gpt-4o" "captcha.png" "texto" none).2 (fun r => rfl)⟩

/-- Claim C3 (amended): every data URI produced by the local encoding
routine, and every data URI forwarded to the inference endpoint by
`resolver_captcha`, carries a declared MIME type from the approved set
(the URL fetch-and-encode routine, by contrast, copies the content-type
header verbatim — see the counterexample). -/
theorem c3_approved_mime :
    (∀ env c s, (converter_imagem_base64 env c).1 = some s → approvedDataUri s) ∧
    (∀ env modelo entrada tipo_captcha pp req,
      Effect.netInference req ∈ (resolver_captcha env modelo entrada tipo_captcha pp).2 →
      approvedDataUri req.imageUrl) := by
  constructor
  · intro env c s hs
    obtain ⟨t, bs, _, ht, _, hform⟩ := converter_some_form env c s hs
    exact ⟨t, bs, ht, hform⟩
  · intro env modelo entrada tipo_captcha pp req hm
    obtain ⟨-, img, hcv, -, hreq⟩ := resolver_inference_inv env modelo entrada tipo_captcha pp req hm
    obtain ⟨t, bs, _, ht, _, hform⟩ := converter_some_form env entrada img hcv
    rw [hreq]
    exact ⟨t, bs, ht, hform⟩

/-- Claim C3, counterexample: the URL fetch-and-encode routine constructs a
data URI whose declared MIME type `text/html` is outside the approved
image-type set, so the invariant does not hold for that routine. -/
theorem c3_counterexample :
    (converter_url_base64 envHtml "http://exemplo.com/captcha").1 =
      some ("data:text/html;base64," ++ b64encode [104, 105]) ∧
    "text/html" ∉ tipos_suportados := by
  exact ⟨rfl, by decide⟩

set_option maxRecDepth 10000 in
/-- Claim C3, witness: the image URL of the one inference call of a healthy
run is an approved data URI. -/
theorem c3_witness : approvedDataUri "data:image/png;base64,iVBORw==" :=
  c3_approved_mime.2 envOk "gpt-4o" "captcha.png" "texto" none
    { model := "gpt-4o", promptText := prompt_texto,
      imageUrl := "data:image/png;base64,iVBORw==", detail := "high",
      maxTokens := 50, temperature := temperatura } (by decide)

/-- Claim C4: for a valid local image file (existing path, approved guessed
MIME type, readable bytes `bs`), the produced Embedded Image is exactly
`data:image/<type>;base64,<payload>` and the payload decodes back to `bs`. -/
theorem c4_roundtrip (env : Env) (c t : String) (bs : List Nat)
    (h1 : env.pathExists c = true) (h2 : env.guessType c = some t)
    (h3 : t ∈ tipos_suportados) (h4 : env.readFile c = some bs)
    (h5 : ∀ b ∈ bs, b < 256) :
    (converter_imagem_base64 env c).1 =
      some ("data:" ++ t ++ ";base64," ++ b64encode bs) ∧
    b64decode (b64encode bs) = some bs := by
  refine ⟨?_, b64decode_b64encode bs h5⟩
  simp [converter_imagem_base64, validar_arquivo_imagem, h1, h2, h3, h4, mimeSupported, pyStr]

/-- Claim C4, witness at a concrete PNG file. -/
theorem c4_witness :
    (converter_imagem_base64 envOk "captcha.png").1 =
      some ("data:" ++ "image/png" ++ ";base64," ++ b64encode [137, 80, 78, 71]) ∧
    b64decode (b64encode [137, 80, 78, 71]) = some [137, 80, 78, 71] :=
  c4_roundtrip envOk "captcha.png" "image/png" [137, 80, 78, 71]
    rfl rfl (by decide) rfl (by decide)

/-- Claim C5 (amended): for every call supplying a nonempty
`prompt_personalizado`, the instruction of any inference call equals
exactly the supplied string, for every challenge type; an empty override
is discarded by the `or` idiom (see the counterexample and Claim C10). -/
theorem c5_custom_prompt (env : Env) (modelo entrada tipo_captcha p : String)
    (req : InferenceRequest) (hp : p ≠ "")
    (hm : Effect.netInference req ∈
      (resolver_captcha env modelo entrada tipo_captcha (some p)).2) :
    req.promptText = p := by
  obtain ⟨-, img, -, -, hreq⟩ :=
    resolver_inference_inv env modelo entrada tipo_captcha (some p) req hm
  rw [hreq]
  simp [pyOr, hp]

/-- Claim C5, counterexample: supplying the empty string as the custom
instruction sends the `matematica` template, not the supplied string. -/
theorem c5_counterexample :
    sentPrompts (resolver_captcha envOk "gpt-4o" "captcha.png" "matematica" (some "")).2 =
      [prompt_matematica] ∧ prompt_matematica ≠ "" := by
  constructor
  · rfl
  · decide

set_option maxRecDepth 10000 in
/-- Claim C5, witness: a nonempty custom instruction is sent verbatim. -/
theorem c5_witness :
    InferenceRequest.promptText
      { model := "gpt-4o", promptText := "resolva este captcha",
        imageUrl := "data:image/png;base64,iVBORw==", detail := "high",
        maxTokens := 50, temperature := temperatura } = "resolva este captcha" :=
  c5_custom_prompt envOk "gpt-4o" "captcha.png" "texto" "resolva este captcha" _
    (by decide) (by decide)

/-- Claim C6: for a non-URL input whose path does not exist, the result is
`None`, the trace is exactly stat + two diagnostics, and no network call
occurs. -/
theorem c6_missing_file (env : Env) (modelo entrada tipo_captcha : String)
    (pp : Option String)
    (h1 : (pyStartsWith entrada "http://" || pyStartsWith entrada "https://") = false)
    (h2 : env.pathExists entrada = false) :
    resolver_captcha env modelo entrada tipo_captcha pp =
      (none, [Effect.fsExists entrada,
              Effect.printed ("❌ Arquivo não encontrado: " ++ entrada),
              Effect.printed msgNaoProcessar]) ∧
    hasNet (resolver_captcha env modelo entrada tipo_captcha pp).2 = false := by
  have he : resolver_captcha env modelo entrada tipo_captcha pp =
      (none, [Effect.fsExists entrada,
              Effect.printed ("❌ Arquivo não encontrado: " ++ entrada),
              Effect.printed msgNaoProcessar]) := by
    simp [resolver_captcha, converter_imagem_base64, validar_arquivo_imagem, h1, h2, pyTruthy]
  refine ⟨he, ?_⟩
  rw [he]
  simp [hasNet, isNetEffect]

/-- Claim C6, witness at a concrete missing file. -/
theorem c6_witness :
    resolver_captcha envMissing "gpt-4o" "captcha.png" "texto" none =
      (none, [Effect.fsExists "captcha.png",
              Effect.printed ("❌ Arquivo não encontrado: " ++ "captcha.png"),
              Effect.printed msgNaoProcessar]) ∧
    hasNet (resolver_captcha envMissing "gpt-4o" "captcha.png" "texto" none).2 = false :=
  c6_missing_file envMissing "gpt-4o" "captcha.png" "texto" none (by decide) rfl

/-- Claim C7: for a non-URL input that exists but whose guessed content
type is outside the approved set (including an unguessable type), the
result is `None`, the file contents are never read, and no network call
occurs. -/
theorem c7_bad_mime (env : Env) (modelo entrada tipo_captcha : String)
    (pp : Option String)
    (h1 : (pyStartsWith entrada "http://" || pyStartsWith entrada "https://") = false)
    (h2 : env.pathExists entrada = true)
    (h3 : mimeSupported (env.guessType entrada) = false) :
    resolver_captcha env modelo entrada tipo_captcha pp =
      (none, [Effect.fsExists entrada,
              Effect.printed ("❌ Formato não suportado: " ++ pyStr (env.guessType entrada)),
              Effect.printed msgNaoProcessar]) ∧
    hasRead (resolver_captcha env modelo entrada tipo_captcha pp).2 = false ∧
    hasNet (resolver_captcha env modelo entrada tipo_captcha pp).2 = false := by
  have he : resolver_captcha env modelo entrada tipo_captcha pp =
      (none, [Effect.fsExists entrada,
              Effect.printed ("❌ Formato não suportado: " ++ pyStr (env.guessType entrada)),
              Effect.printed msgNaoProcessar]) := by
    simp [resolver_captcha, converter_imagem_base64, validar_arquivo_imagem, h1, h2, h3, pyTruthy]
  refine ⟨he, ?_, ?_⟩ <;> rw [he] <;> simp [hasRead, hasNet, isNetEffect]

/-- Claim C7, witness at a concrete PDF file. -/
theorem c7_witness :
    resolver_captcha envBadType "gpt-4o" "captcha.pdf" "texto" none =
      (none, [Effect.fsExists "captcha.pdf",
              Effect.printed ("❌ Formato não suportado: " ++ pyStr (envBadType.guessType "captcha.pdf")),
              Effect.printed msgNaoProcessar]) ∧
    hasRead (resolver_captcha envBadType "gpt-4o" "captcha.pdf" "texto" none).2 = false ∧
    hasNet (resolver_captcha envBadType "gpt-4o" "captcha.pdf" "texto" none).2 = false :=
  c7_bad_mime envBadType "gpt-4o" "captcha.pdf" "texto" none (by decide) rfl (by decide)

/-- Claim C8: the prompt selector is total — each recognized tag maps to
its fixed template, and every unrecognized tag falls back to the `texto`
template. -/
theorem c8_prompt_total :
    criar_prompt_captcha "texto" = prompt_texto ∧
    criar_prompt_captcha "matematica" = prompt_matematica ∧
    criar_prompt_captcha "objeto" = prompt_objeto ∧
    ∀ t : String, t ∉ (["texto", "matematica", "objeto"] : List String) →
      criar_prompt_captcha t = prompt_texto := by
  refine ⟨rfl, rfl, rfl, ?_⟩
  intro t ht
  simp only [List.mem_cons, List.not_mem_nil, or_false, not_or] at ht
  obtain ⟨ht1, ht2, ht3⟩ := ht
  simp [criar_prompt_captcha, ht1, ht2, ht3]

/-- Claim C8, witness at a concrete unrecognized tag. -/
theorem c8_witness : criar_prompt_captcha "desconhecido" = prompt_texto :=
  c8_prompt_total.2.2.2 "desconhecido" (by decide)

/-- Claim C9: on a successful inference call (stubbed endpoint, nonempty
choices, non-null content `s`), `resolver_captcha` returns `s` with
surrounding whitespace stripped. -/
theorem c9_trimmed (env : Env) (modelo entrada tipo_captcha : String) (pp : Option String)
    (resp : ChatResponse) (escolha : Choice) (rest : List Choice) (s img : String)
    (h1 : (pyStartsWith entrada "http://" || pyStartsWith entrada "https://") = false)
    (h2 : (converter_imagem_base64 env entrada).1 = some img)
    (h3 : ∀ r, env.inference r = some resp)
    (h4 : resp.choices = escolha :: rest)
    (h5 : escolha.content = some s) :
    (resolver_captcha env modelo entrada tipo_captcha pp).1 = some (pyStrip s) := by
  have himg : img ≠ "" := by
    obtain ⟨t, bs, _, _, _, hform⟩ := converter_some_form env entrada img h2
    rw [hform]
    exact dataUri_ne_empty t (b64encode bs)
  have htr : pyTruthy (some img) = true := by simp [pyTruthy, himg]
  unfold resolver_captcha
  rw [h1]
  simp only [Bool.false_eq_true, if_false]
  rw [h2, htr]
  simp only [Bool.not_true, Bool.false_eq_true, if_false, Option.getD_some]
  rw [h3]
  obtain ⟨chs⟩ := resp
  have h4' : chs = escolha :: rest := h4
  subst h4'
  obtain ⟨co⟩ := escolha
  have h5' : co = some s := h5
  subst h5'
  rfl

/-- Claim C9, witness: the stubbed answer `"  AB12 \n"` comes back as
`"AB12"`. -/
theorem c9_witness :
    (resolver_captcha envOk "gpt-4o" "captcha.png" "texto" none).1 = some "AB12" := by
  have h := c9_trimmed envOk "gpt-4o" "captcha.png" "texto" none
    { choices := [{ content := some "  AB12 \n" }] } { content := some "  AB12 \n" } []
    "  AB12 \n" "data:image/png;base64,iVBORw==" (by decide) (by decide)
    (fun r => rfl) rfl rfl
  rw [h]
  decide

/-- Claim C10: supplying the empty string as the custom instruction does
not override — the instruction of any inference call is the tag-based
template for the challenge type. -/
theorem c10_empty_override (env : Env) (modelo entrada tipo_captcha : String)
    (req : InferenceRequest)
    (hm : Effect.netInference req ∈
      (resolver_captcha env modelo entrada tipo_captcha (some "")).2) :
    req.promptText = criar_prompt_captcha tipo_captcha := by
  obtain ⟨-, img, -, -, hreq⟩ :=
    resolver_inference_inv env modelo entrada tipo_captcha (some "") req hm
  rw [hreq]
  simp [pyOr]

set_option maxRecDepth 10000 in
/-- Claim C10, witness: with an empty override and tag `texto`, the sent
instruction is the `texto` template. -/
theorem c10_witness :
    InferenceRequest.promptText
      { model := "gpt-4o", promptText := prompt_texto,
        imageUrl := "data:image/png;base64,iVBORw==", detail := "high",
        maxTokens := 50, temperature := temperatura } = criar_prompt_captcha "texto" :=
  c10_empty_override envOk "gpt-4o" "captcha.png" "texto" _ (by decide)

end Captcha
